import Mathlib

/-!
Verification development for the EPOS SiFive-U (RISC-V) early-boot subsystem:
a shallow embedding of `src/setup/setup_sifive_u.cc` and
`src/architecture/rv64/rv64_mmu_init.cc`, followed by theorems about the
embedded operations.

Machine integers (`unsigned long` / `CPU::Reg`) are modelled as `Nat` with an
explicit modulus `W64 = 2^64`; `unsigned int` quantities use `U32 = 2^32`.
-/

/-- 2^64, the modulus of `unsigned long` / `CPU::Reg` arithmetic. -/
def W64 : Nat := 2 ^ 64

/-- 2^32, the modulus of `unsigned int` arithmetic. -/
def U32 : Nat := 2 ^ 32

/-- Modelled from the spec: the MMU page size.  `rv64_mmu.h` is not under
`src/`; the RV64 Sv39 4-KiB page granule is fixed by the spec's RV64 target and
by the arithmetic in the comments of `build_pmm` (divisions by 4*1024). -/
def PAGE_SIZE : Nat := 4096

/-- Modelled from the spec: entries per page table (512 for RV64 Sv39, as in
the `%512` arithmetic of the `build_pmm` comments). -/
def PT_ENTRIES : Nat := 512

/-- Modelled from the spec: entries per page directory (`MMU::PD_ENTRIES`). -/
def PD_ENTRIES : Nat := 512

/-- The `-1u` sentinel (all-ones `unsigned int`) marking an absent payload
offset in the boot descriptor. -/
def ABSENT : Nat := 4294967295

/-- The `~0U` value used to initialise code/data base addresses in the
load map. -/
def UNDEF : Nat := 4294967295

/-- ELF `PT_LOAD` segment type tag. -/
def SEG_LOAD : Nat := 1

/-- Wrapping 64-bit subtraction: `(a - b) mod 2^64` for `a, b < 2^64`. -/
def wsub (a b : Nat) : Nat := (a + (W64 - b % W64)) % W64

/-- Modelled from the spec: `MMU::pages`, bytes rounded up to to whole pages
("pages for system code (rounded up to whole pages)"). -/
def pages (x : Nat) : Nat := (x + PAGE_SIZE - 1) / PAGE_SIZE

/-- Modelled from the spec: `MMU::page_tables`, the number of page tables
needed to hold `n` page-table entries, rounded up. -/
def page_tables (n : Nat) : Nat := (n + PT_ENTRIES - 1) / PT_ENTRIES

/-- Modelled from the spec: `MMU::align_page`, round an address up to the next
page boundary. -/
def align_page (x : Nat) : Nat := pages x * PAGE_SIZE

/-- One ELF program-header entry, as exposed by the ELF Image Reader interface
(spec 4.1: `segment_type/address/size(i)`). -/
structure Segment where
  typ : Nat
  addr : Nat
  size : Nat
deriving DecidableEq

/-- The ELF Image View interface (spec 4.1): validity, entry point and the
program-header table of one payload embedded in the boot blob. -/
structure ELFImage where
  valid : Bool
  entry : Nat
  segs : List Segment
deriving DecidableEq

/-- `elf->segment_address(i)` (out-of-range header reads modelled as 0). -/
def segAddr (e : ELFImage) (i : Nat) : Nat := (e.segs.getD i ⟨0, 0, 0⟩).addr

/-- `elf->segment_size(i)` (out-of-range header reads modelled as 0). -/
def segSize (e : ELFImage) (i : Nat) : Nat := (e.segs.getD i ⟨0, 0, 0⟩).size

/-- The data-segment scan of `build_lm` (lines 143-151 and the three identical
copies): over segments 1.., keep the minimum `PT_LOAD` address (starting from
`~0U`) and accumulate the sizes.  Returns `(data, data_size)`. -/
def elfData (e : ELFImage) : Nat × Nat :=
  (e.segs.drop 1).foldl
    (fun p s =>
      if s.typ = SEG_LOAD then
        (if s.addr < p.1 then s.addr else p.1, (p.2 + s.size) % W64)
      else p)
    (UNDEF, 0)

/-- The boot image blob, viewed as the map from a byte offset to the ELF image
found there (the zero-copy `reinterpret_cast<ELF *>(&bi[offset])`). -/
def Blob : Type := Nat → ELFImage

/-- The compile-time configuration the setup code is linked against:
`Memory_Map` constants and `Traits` values.  These headers are not under
`src/`; the fields are modelled from the spec's "fixed memory-layout
constants" table and kept symbolic. -/
structure Cfg where
  SYS : Nat
  SYS_CODE : Nat
  SYS_DATA : Nat
  SYS_STACK : Nat
  SYS_HIGH : Nat
  APP_DATA : Nat
  RAM_BASE : Nat
  RAM_TOP : Nat
  MMODE_F : Nat
  /-- `Traits<System>::STACK_SIZE` -/
  SYS_STACK_SZ : Nat
  /-- `Traits<Application>::STACK_SIZE` -/
  APP_STACK_SZ : Nat
  /-- `Traits<Application>::HEAP_SIZE` -/
  APP_HEAP_SZ : Nat
  /-- `Traits<Machine>::STACK_SIZE` -/
  MACH_STACK_SZ : Nat
  /-- `Traits<Machine>::CPUS` -/
  CPUS : Nat
  /-- `Traits<System>::multiheap` -/
  multiheap : Bool
deriving DecidableEq

/-- The Boot Descriptor `si->bm` (fields consumed by this core). -/
structure BM where
  n_cpus : Nat
  setup_offset : Nat
  init_offset : Nat
  system_offset : Nat
  application_offset : Nat
  extras_offset : Nat
  img_size : Nat
  mem_base : Nat
  mem_top : Nat
  mio_base : Nat
  mio_top : Nat
deriving DecidableEq

/-- The Load Map `si->lm` written by `build_lm`. -/
structure LM where
  has_stp : Bool
  has_ini : Bool
  has_sys : Bool
  has_app : Bool
  has_ext : Bool
  stp_entry : Nat
  stp_segments : Nat
  stp_code : Nat
  stp_code_size : Nat
  stp_data : Nat
  stp_data_size : Nat
  ini_entry : Nat
  ini_segments : Nat
  ini_code : Nat
  ini_code_size : Nat
  ini_data : Nat
  ini_data_size : Nat
  sys_entry : Nat
  sys_segments : Nat
  sys_code : Nat
  sys_code_size : Nat
  sys_data : Nat
  sys_data_size : Nat
  sys_stack : Nat
  sys_stack_size : Nat
  app_entry : Nat
  app_segments : Nat
  app_code : Nat
  app_code_size : Nat
  app_data : Nat
  app_data_size : Nat
  app_stack : Nat
  app_heap : Nat
  app_extra : Nat
  app_extra_size : Nat
deriving DecidableEq

/-- The all-zero load map (a convenient prior state for the builder). -/
def LM.zero : LM :=
  ⟨false, false, false, false, false,
   0, 0, 0, 0, 0, 0,
   0, 0, 0, 0, 0, 0,
   0, 0, 0, 0, 0, 0, 0, 0,
   0, 0, 0, 0, 0, 0, 0, 0, 0, 0⟩

/-- The Physical Memory Map `si->pmm` written by `build_pmm`. -/
structure PMM where
  sys_info : Nat
  sys_pt : Nat
  sys_pd : Nat
  sys_code : Nat
  sys_data : Nat
  sys_stack : Nat
  phy_mem_pts : Nat
  io_pts : Nat
  usr_mem_base : Nat
  usr_mem_top : Nat
  free1_base : Nat
  free1_top : Nat
deriving DecidableEq

/-- The values `build_lm` writes into the load map, one field per source-level
store.  The four `Option` fields are the stores that only happen under
`has_app` together with `multiheap` (`app_stack`, `app_heap`) or `has_ext`
(`app_extra`, `app_extra_size`); `none` means the store does not execute and
the previous field value survives. -/
structure LMVals where
  has_stp : Bool
  has_ini : Bool
  has_sys : Bool
  has_app : Bool
  has_ext : Bool
  stp_entry : Nat
  stp_segments : Nat
  stp_code : Nat
  stp_code_size : Nat
  stp_data : Nat
  stp_data_size : Nat
  ini_entry : Nat
  ini_segments : Nat
  ini_code : Nat
  ini_code_size : Nat
  ini_data : Nat
  ini_data_size : Nat
  sys_entry : Nat
  sys_segments : Nat
  sys_code : Nat
  sys_code_size : Nat
  sys_data : Nat
  sys_data_size : Nat
  sys_stack : Nat
  sys_stack_size : Nat
  app_entry : Nat
  app_segments : Nat
  app_code : Nat
  app_code_size : Nat
  app_data : Nat
  app_data_size : Nat
  app_stack : Option Nat
  app_heap : Option Nat
  app_extra : Option Nat
  app_extra_size : Option Nat
deriving DecidableEq

/-- Apply the stores of one `build_lm` run to a prior load map. -/
def applyLMVals (l : LM) (v : LMVals) : LM :=
  { has_stp := v.has_stp, has_ini := v.has_ini, has_sys := v.has_sys
    has_app := v.has_app, has_ext := v.has_ext
    stp_entry := v.stp_entry, stp_segments := v.stp_segments
    stp_code := v.stp_code, stp_code_size := v.stp_code_size
    stp_data := v.stp_data, stp_data_size := v.stp_data_size
    ini_entry := v.ini_entry, ini_segments := v.ini_segments
    ini_code := v.ini_code, ini_code_size := v.ini_code_size
    ini_data := v.ini_data, ini_data_size := v.ini_data_size
    sys_entry := v.sys_entry, sys_segments := v.sys_segments
    sys_code := v.sys_code, sys_code_size := v.sys_code_size
    sys_data := v.sys_data, sys_data_size := v.sys_data_size
    sys_stack := v.sys_stack, sys_stack_size := v.sys_stack_size
    app_entry := v.app_entry, app_segments := v.app_segments
    app_code := v.app_code, app_code_size := v.app_code_size
    app_data := v.app_data, app_data_size := v.app_data_size
    app_stack := v.app_stack.getD l.app_stack
    app_heap := v.app_heap.getD l.app_heap
    app_extra := v.app_extra.getD l.app_extra
    app_extra_size := v.app_extra_size.getD l.app_extra_size }

/-- One payload block of `build_lm` (the identical setup/init/system/app
blocks, lines 126-152, 155-181, 184-211, 236-260): absent payloads yield the
initialisation values `(0, 0, ~0U, 0, ~0U, 0)`; a present but invalid ELF
panics; otherwise the entry, segment count, segment-0 code address/size and
the data scan results are produced. -/
def payloadScan (present : Bool) (e : ELFImage) (err : String) :
    Except String (Nat × Nat × Nat × Nat × Nat × Nat) :=
  if present then
    if e.valid then
      .ok (e.entry, e.segs.length, segAddr e 0, segSize e 0,
           (elfData e).1, (elfData e).2)
    else .error err
  else .ok (0, 0, UNDEF, 0, UNDEF, 0)

/-- The system-payload layout checks of `build_lm` (lines 213-232), run in
source order; the first failing check panics with its diagnostic. -/
def sysChecks (c : Cfg) (sysCode sysCodeSz sysData sysDataSz sysStackSz : Nat) :
    Except String Unit :=
  if sysCode ≠ c.SYS_CODE then
    .error "OS code segment address does not match the machine memory map!"
  else if (sysCode + sysCodeSz) % W64 > sysData then
    .error "OS code segment is too large!"
  else if sysData ≠ c.SYS_DATA then
    .error "OS data segment address does not match the machine memory map!"
  else if (sysData + sysDataSz) % W64 > c.SYS_STACK then
    .error "OS data segment is too large!"
  else if page_tables (pages ((wsub c.SYS_STACK c.SYS + sysStackSz) % W64)) > 1 then
    .error "OS stack segment is too large!"
  else .ok ()

/-- The application post-processing of `build_lm` (lines 261-278): synthesise
a data base from `APP_DATA` when the scan found no data segment, extend the
data size by stack/heap blocks under `multiheap`, and append the extras.
Returns `(app_data, app_data_size, app_stack?, app_heap?, app_extra?,
app_extra_size?)`. -/
def appPost (c : Cfg) (bm : BM) (hasApp hasExt : Bool) (d0 ds0 : Nat) :
    Nat × Nat × Option Nat × Option Nat × Option Nat × Option Nat :=
  if hasApp then
    let d := if d0 = UNDEF then align_page c.APP_DATA else d0
    let (ds1, stk, hp) :=
      if c.multiheap then
        let dsa := align_page ds0 % W64
        let stka := (d + dsa) % W64
        let dsb := (dsa + align_page c.APP_STACK_SZ) % W64
        let hpa := (d + dsb) % W64
        let dsc := (dsb + align_page c.APP_HEAP_SZ) % W64
        (dsc, some stka, some hpa)
      else (ds0, none, none)
    if hasExt then
      let ex := (d + ds1) % W64
      let exs0 := wsub bm.img_size bm.extras_offset
      let exs := if c.multiheap then align_page exs0 % W64 else exs0
      (d, (ds1 + exs) % W64, stk, hp, some ex, some exs)
    else (d, ds1, stk, hp, none, none)
  else (d0, ds0, none, none, none, none)

/-- `Setup::build_lm` (lines 114-280), as the bundle of values it stores.
Every store's value is computed from the configuration, the boot descriptor
and the blob alone (the source never reads a load-map field it has not just
written in the same run). -/
def build_lm_vals (c : Cfg) (bm : BM) (bi : Blob) : Except String LMVals := do
  let has_stp : Bool := bm.setup_offset != ABSENT
  let has_ini : Bool := bm.init_offset != ABSENT
  let has_sys : Bool := bm.system_offset != ABSENT
  let has_app : Bool := bm.application_offset != ABSENT
  let has_ext : Bool := bm.extras_offset != ABSENT
  let (stpE, stpS, stpC, stpCS, stpD, stpDS) ←
    payloadScan has_stp (bi bm.setup_offset) "SETUP ELF image is corrupted!"
  let (iniE, iniS, iniC, iniCS, iniD, iniDS) ←
    payloadScan has_ini (bi bm.init_offset) "INIT ELF image is corrupted!"
  let sysStack := c.SYS_STACK
  let sysStackSz := (c.SYS_STACK_SZ * bm.n_cpus) % W64
  let (sysE, sysS, sysC, sysCS, sysD, sysDS) ←
    payloadScan has_sys (bi bm.system_offset) "OS ELF image is corrupted!"
  let _ ← if has_sys then sysChecks c sysC sysCS sysD sysDS sysStackSz
          else .ok ()
  let (appE, appS, appC, appCS, appD0, appDS0) ←
    payloadScan has_app (bi bm.application_offset) "APP ELF image is corrupted!"
  let (appD, appDS, appStk, appHp, appEx, appExS) :=
    appPost c bm has_app has_ext appD0 appDS0
  pure
    { has_stp := has_stp, has_ini := has_ini, has_sys := has_sys
      has_app := has_app, has_ext := has_ext
      stp_entry := stpE, stp_segments := stpS
      stp_code := stpC, stp_code_size := stpCS
      stp_data := stpD, stp_data_size := stpDS
      ini_entry := iniE, ini_segments := iniS
      ini_code := iniC, ini_code_size := iniCS
      ini_data := iniD, ini_data_size := iniDS
      sys_entry := sysE, sys_segments := sysS
      sys_code := sysC, sys_code_size := sysCS
      sys_data := sysD, sys_data_size := sysDS
      sys_stack := sysStack, sys_stack_size := sysStackSz
      app_entry := appE, app_segments := appS
      app_code := appC, app_code_size := appCS
      app_data := appD, app_data_size := appDS
      app_stack := appStk, app_heap := appHp
      app_extra := appEx, app_extra_size := appExS }

/-- `Setup::build_lm` acting on the shared load map: perform the stores of
`build_lm_vals` on the prior contents `lm0`, or panic. -/
def build_lm (c : Cfg) (bm : BM) (bi : Blob) (lm0 : LM) : Except String LM :=
  (build_lm_vals c bm bi).map (applyLMVals lm0)

/-- The number of page tables needed to map physical memory, `unsigned int
n_pds` of `build_pmm` (line 332). -/
def pmm_n_pds (bm : BM) : Nat :=
  page_tables (pages (wsub bm.mem_top bm.mem_base)) % U32

/-- The first-level table count `n_pd1` of `build_pmm` (lines 333-338):
`n_pds` itself, unless `n_pds` exceeds one directory's entry capacity, in
which case `n_pd1 = n_pds / (n_pds / PD_ENTRIES)`. -/
def pmm_n_pd1 (bm : BM) : Nat :=
  let n := pmm_n_pds bm
  if n > PD_ENTRIES then n / (n / PD_ENTRIES) else n

/-- The second-level table count `n_pd2` of `build_pmm` (lines 333-338):
1, unless `n_pds` exceeds capacity, in which case `n_pds / PD_ENTRIES`. -/
def pmm_n_pd2 (bm : BM) : Nat :=
  let n := pmm_n_pds bm
  if n > PD_ENTRIES then n / PD_ENTRIES else 1

/-- `Setup::build_pmm` (lines 282-365): walk `top_page` downward from
`pages(mem_top - mem_base)`, recording each region base as
`top_page * sizeof(Page)`, then derive the free chunk and run the
SETUP-overlap panic check. -/
def build_pmm (bm : BM) (lm : LM) : Except String PMM :=
  let t0 := pages (wsub bm.mem_top bm.mem_base)
  -- Machine to Supervisor code (1 page, not listed in the PMM)
  let t1 := wsub t0 1
  -- System Info (1 page)
  let t2 := wsub t1 1
  -- System Page Table (1 page)
  let t3 := wsub t2 1
  -- System Page Directory (the source subtracts 2 pages here)
  let t4 := wsub t3 2
  -- SYSTEM code segment
  let t5 := wsub t4 (pages lm.sys_code_size)
  -- SYSTEM data segment
  let t6 := wsub t5 (pages lm.sys_data_size)
  -- SYSTEM stack segment
  let t7 := wsub t6 (pages lm.sys_stack_size)
  -- Page tables to map the whole physical memory (two writes to
  -- phy_mem_pts; the first, after subtracting n_pd1, is overwritten)
  let t8 := wsub t7 (pmm_n_pd1 bm)
  let t9 := wsub t8 (pmm_n_pd2 bm)
  -- Page tables to map the IO address space
  let t10 := wsub t9 (page_tables (pages (wsub bm.mio_top bm.mio_base)))
  let usrTop := (t10 * PAGE_SIZE) % W64
  let footprint := (lm.stp_code + lm.stp_code_size + lm.stp_data_size) % W64
  if usrTop ≤ footprint then
    .error "SETUP would have been overwritten!"
  else
    .ok { sys_info := (t2 * PAGE_SIZE) % W64
          sys_pt := (t3 * PAGE_SIZE) % W64
          sys_pd := (t4 * PAGE_SIZE) % W64
          sys_code := (t5 * PAGE_SIZE) % W64
          sys_data := (t6 * PAGE_SIZE) % W64
          sys_stack := (t7 * PAGE_SIZE) % W64
          phy_mem_pts := (t9 * PAGE_SIZE) % W64
          io_pts := (t10 * PAGE_SIZE) % W64
          usr_mem_base := bm.mem_base
          usr_mem_top := usrTop
          free1_base :=
            if lm.has_ext then (lm.app_extra + lm.app_extra_size) % W64
            else (lm.app_data + lm.app_data_size) % W64
          free1_top := usrTop }

/-- The observable steps of the boot path (`_entry`, `_setup`, and the
`Setup` constructor).  `satpWriteEnable` is the step spec 4.4 calls
"writing the root table into the translation-root register with the
paging-enabled bit set"; `loadParts` is the Segment Loader of spec 4.5. -/
inductive Step where
  | sieEnable
  | sstatusSPP
  | stvecInstall
  | intDisable
  | displayInit
  | clampCpus
  | sayHi
  | buildLM
  | buildPMM
  | initMMU
  | loadParts
  | satpWriteEnable
  | flushTLB
  | callNext
deriving DecidableEq

/-- The steps of `Setup::Setup` (lines 86-112), in source order.  The
translation-enable call (`MMU::Directory::activate()`) is commented out in
the source and `Setup::init_mmu` (lines 402-463) performs no privileged
register write, so no `satpWriteEnable` step occurs; `build_lm`, `build_pmm`
and any segment loading are absent from the constructor body. -/
def ctorTrace : List Step :=
  [.intDisable, .displayInit, .clampCpus, .sayHi, .initMMU, .flushTLB,
   .callNext]

/-- The steps of the supervisor-mode entry routine `_setup` (lines 510-517):
enable the supervisor interrupt sources, set the sstatus previous-privilege
bit, install the supervisor trap vector, then run the `Setup` constructor. -/
def setupTrace : List Step :=
  [.sieEnable, .sstatusSPP, .stvecInstall] ++ ctorTrace

/-- Modelled from the spec: mask extracting the interrupt cause code from
`mcause` (`IC::INT_MASK`, headers not under `src/`) - it clears the RV64
interrupt flag bit 63. -/
def INT_MASK : Nat := 2 ^ 63 - 1

/-- Modelled from the spec: `CLINT::IRQ_MAC_TIMER`, the RISC-V machine timer
interrupt cause code. -/
def IRQ_MAC_TIMER : Nat := 7

/-- Modelled from the spec: `CPU::STI`, the supervisor-timer bit (bit 5) of
the interrupt-enable/pending registers. -/
def STI : Nat := 2 ^ 5

/-- The machine state read and written by `_mmode_forward`: the trap cause,
the global interrupt-enable flag (`CPU::int_enabled()`), the supervisor
interrupt-enable register, the (supervisor view of the) interrupt-pending
register, and whether the machine timer was reset. -/
structure MState where
  mcause : Nat
  intEnabled : Bool
  sie : Nat
  mip : Nat
  timerReset : Bool
deriving DecidableEq

/-- The supervisor interrupt bit `_mmode_forward` forwards a trap to:
`1 << ((mcause & INT_MASK) - 2)` (line 38). -/
def forwardBit (s : MState) : Nat :=
  (1 <<< ((s.mcause &&& INT_MASK) - 2)) % W64

/-- `_mmode_forward` (lines 30-41).  On a machine timer interrupt the timer
is reset and STI is set in `sie` (`CPU::sie(bits)` and `CPU::mip(bits)` are
modelled from the spec's register interface as set-bits operations, the
headers not being under `src/`).  Then the supervisor pending bit is set when
interrupts are globally enabled and that source is enabled in `sie`. -/
def mmode_forward (s : MState) : MState :=
  let s1 :=
    if s.mcause &&& INT_MASK = IRQ_MAC_TIMER then
      { s with timerReset := true, sie := s.sie ||| STI }
    else s
  if s1.intEnabled && (s1.sie &&& forwardBit s != 0) then
    { s1 with mip := s1.mip ||| forwardBit s }
  else s1

/-- `MMU::init` (`rv64_mmu_init.cc`, lines 6-25) as the list of
`free(base, n_pages)` calls it issues, in order. -/
def mmu_init_frees (c : Cfg) (lm : LM) : List (Nat × Nat) :=
  [ (align_page ((c.SYS_DATA + lm.sys_data_size + 1) % W64),
     pages (wsub c.SYS_HIGH
       (align_page ((c.SYS_DATA + lm.sys_data_size + 1) % W64)))),
    (wsub ((c.RAM_TOP + 1) % W64) ((c.MACH_STACK_SZ * c.CPUS) % W64),
     pages ((c.MACH_STACK_SZ * c.CPUS) % W64)),
    (c.RAM_BASE, pages (wsub c.MMODE_F c.RAM_BASE)) ]

/-- The shared descriptor record `*si`: boot descriptor, load map and
physical memory map. -/
structure SI where
  bm : BM
  lm : LM
  pmm : PMM
deriving DecidableEq

/-- The `n_cpus` clamp of the `Setup` constructor (lines 94-95): if the
descriptor's hart count exceeds `Traits<Machine>::CPUS`, write `CPUS` into
`bm.n_cpus`. -/
def clampCpus (c : Cfg) (si : SI) : SI :=
  if si.bm.n_cpus > c.CPUS then
    { si with bm := { si.bm with n_cpus := c.CPUS } }
  else si

/-- `build_lm` acting on the shared record: writes go to the `lm` part. -/
def build_lm_si (c : Cfg) (bi : Blob) (si : SI) : Except String SI :=
  (build_lm c si.bm bi si.lm).map fun l => { si with lm := l }

/-- `build_pmm` acting on the shared record: writes go to the `pmm` part. -/
def build_pmm_si (si : SI) : Except String SI :=
  (build_pmm si.bm si.lm).map fun p => { si with pmm := p }

/-! Concrete configurations, descriptors, blobs and states used by the
witnesses and counterexamples below. -/

/-- A concrete configuration with an EPOS-like layout: SYS window at 0,
system code at 1 MiB, data at 2 MiB, stack at 3 MiB, 4-KiB stacks, 4 harts,
multiheap off. -/
def cfgA : Cfg :=
  { SYS := 0, SYS_CODE := 1048576, SYS_DATA := 2097152, SYS_STACK := 3145728
    SYS_HIGH := 4194304, APP_DATA := 5242880, RAM_BASE := 0, RAM_TOP := 262143
    MMODE_F := 8192, SYS_STACK_SZ := 4096, APP_STACK_SZ := 4096
    APP_HEAP_SZ := 4096, MACH_STACK_SZ := 4096, CPUS := 4, multiheap := false }

/-- An invalid/absent ELF image (never inspected for absent payloads). -/
def emptyElf : ELFImage := ⟨false, 0, []⟩

/-- A blob with no payloads. -/
def blob0 : Blob := fun _ => emptyElf

/-- A system ELF whose segments match `cfgA`'s memory map exactly. -/
def sysElfOk : ELFImage :=
  ⟨true, 1048576, [⟨SEG_LOAD, 1048576, 4096⟩, ⟨SEG_LOAD, 2097152, 4096⟩]⟩

/-- Descriptor with only the system payload present (at offset 0), one hart,
64 pages of RAM and one page of I/O space. -/
def bm3 : BM :=
  { n_cpus := 1, setup_offset := ABSENT, init_offset := ABSENT
    system_offset := 0, application_offset := ABSENT, extras_offset := ABSENT
    img_size := 0, mem_base := 0, mem_top := 262144
    mio_base := 0, mio_top := 4096 }

/-- Blob carrying `sysElfOk` at every offset (only offset 0 is read). -/
def blob3 : Blob := fun _ => sysElfOk

/-- Descriptor with no payloads, one hart, 64 pages of RAM, one page of
I/O space. -/
def bm4 : BM :=
  { n_cpus := 1, setup_offset := ABSENT, init_offset := ABSENT
    system_offset := ABSENT, application_offset := ABSENT
    extras_offset := ABSENT, img_size := 0, mem_base := 0, mem_top := 262144
    mio_base := 0, mio_top := 4096 }

/-- A load map with a one-page system stack and everything else zero. -/
def lm4 : LM := { LM.zero with sys_stack_size := 4096 }

/-- The physical memory map `build_pmm` computes for `bm4`/`lm4`
(top page index 64; bases 62,61,59,59,59,58,56,55 pages). -/
def pmm4 : PMM :=
  { sys_info := 253952, sys_pt := 249856, sys_pd := 241664, sys_code := 241664
    sys_data := 241664, sys_stack := 237568, phy_mem_pts := 229376
    io_pts := 225280, usr_mem_base := 0, usr_mem_top := 225280
    free1_base := 0, free1_top := 225280 }

/-- A setup ELF with a single one-page code segment at 4096. -/
def stpElf : ELFImage := ⟨true, 4096, [⟨SEG_LOAD, 4096, 4096⟩]⟩

/-- Descriptor with only the setup payload present (at offset 0). -/
def bm5 : BM := { bm4 with setup_offset := 0 }

/-- Blob carrying `stpElf`. -/
def blob5 : Blob := fun _ => stpElf

/-- Descriptor with every payload offset set to the absent sentinel. -/
def bm6 : BM :=
  { n_cpus := 3, setup_offset := ABSENT, init_offset := ABSENT
    system_offset := ABSENT, application_offset := ABSENT
    extras_offset := ABSENT, img_size := 0, mem_base := 0, mem_top := 0
    mio_base := 0, mio_top := 0 }

/-- An application ELF with a single one-page code segment and no data
segment. -/
def appElf : ELFImage := ⟨true, 0, [⟨SEG_LOAD, 5242880, 4096⟩]⟩

/-- Descriptor with only the application payload present (at offset 0). -/
def bm7 : BM := { bm6 with n_cpus := 1, application_offset := 0 }

/-- Blob carrying `appElf`. -/
def blob7 : Blob := fun _ => appElf

/-- A prior load map whose `app_stack` field holds a non-zero leftover. -/
def lmB : LM := { LM.zero with app_stack := 7 }

/-- The load map `build_lm cfgA bm7 blob7 lmB` produces: the application's
code recorded, its data base synthesised from `APP_DATA`, and the untouched
`app_stack` leftover surviving. -/
def lm1B : LM :=
  { LM.zero with
    has_app := true
    stp_code := UNDEF
    stp_data := UNDEF
    ini_code := UNDEF
    ini_data := UNDEF
    sys_code := UNDEF
    sys_data := UNDEF
    sys_stack := 3145728
    sys_stack_size := 4096
    app_segments := 1
    app_code := 5242880
    app_code_size := 4096
    app_data := 5242880
    app_stack := 7 }

/-- The all-zero physical memory map. -/
def pmm0 : PMM := ⟨0, 0, 0, 0, 0, 0, 0, 0, 0, 0, 0, 0⟩

/-- A shared record whose descriptor claims more harts (5) than the machine
has (`cfgA.CPUS = 4`). -/
def si8 : SI := ⟨{ bm6 with n_cpus := 5 }, LM.zero, pmm0⟩

/-- A shared record on which both builders succeed. -/
def si9 : SI := ⟨bm4, LM.zero, pmm0⟩

/-- A machine state trapping on the machine timer interrupt
(`mcause = 2^63 + 7`), with interrupts globally enabled and `sie` empty. -/
def s9 : MState := ⟨9223372036854775815, true, 0, 0, false⟩

/-! Helper lemmas. -/

/-- Wrapping subtraction agrees with truncated subtraction when it cannot
underflow. -/
theorem wsub_sub {a b : Nat} (h : b ≤ a) (ha : a < W64) : wsub a b = a - b := by
  unfold wsub
  have hb : b % W64 = b := Nat.mod_eq_of_lt (lt_of_le_of_lt h ha)
  rw [hb, show a + (W64 - b) = W64 + (a - b) by unfold W64 at *; omega,
      Nat.add_mod_left, Nat.mod_eq_of_lt (by unfold W64 at *; omega)]

/-- Page-index addresses are page-aligned, even through 64-bit wraparound. -/
theorem page_dvd_mod (x : Nat) : PAGE_SIZE ∣ (x * PAGE_SIZE) % W64 :=
  (Nat.dvd_mod_iff ⟨2 ^ 52, by norm_num [PAGE_SIZE, W64]⟩).mpr
    (dvd_mul_left _ _)

/-- `Option.getD` collapses under repetition. -/
theorem getD_getD {α : Type} (o : Option α) (x : α) :
    o.getD (o.getD x) = o.getD x := by cases o <;> rfl

/-- Re-applying the same bundle of `build_lm` stores changes nothing. -/
theorem applyLMVals_idem (l : LM) (v : LMVals) :
    applyLMVals (applyLMVals l v) v = applyLMVals l v := by
  simp [applyLMVals, getD_getD]

/-! Claim theorems. -/

/-- C1: the claim says that after `_setup` enables the supervisor interrupt
sources, sets the sstatus previous-privilege bit and installs the trap
vector, the `Setup` constructor runs build_lm, build_pmm, init_mmu and the
Segment Loader in order before transferring control.  In the source the
constructor never invokes `build_lm` or `build_pmm` and no segment loader
exists; only `say_hi`, `init_mmu`, the TLB flush and `call_next` run, so
`init_mmu` consumes physical-memory-map fields that were never computed. -/
theorem C1_ctor_skips_builders :
    Step.buildLM ∉ setupTrace ∧ Step.buildPMM ∉ setupTrace ∧
    Step.loadParts ∉ setupTrace ∧ Step.initMMU ∈ setupTrace ∧
    Step.callNext ∈ setupTrace ∧
    setupTrace.take 3 = [.sieEnable, .sstatusSPP, .stvecInstall] := by
  decide

/-- C2: the claim says the Page-Table Builder concludes by writing the root
page table into the address-translation-root register with the
paging-enabled bit set and then flushes the TLB.  In the source the enable
call (`MMU::Directory::activate()`) is commented out and `init_mmu` performs
no such register write: the boot path flushes the TLB but never writes the
translation-root register, so paging stays off (`_entry` set `satp` to 0). -/
theorem C2_no_translation_enable :
    Step.satpWriteEnable ∉ setupTrace ∧ Step.flushTLB ∈ setupTrace := by
  decide

/-- C9: `_mmode_forward` sets a supervisor pending bit only when interrupts
are globally enabled and that source is enabled in `sie` (after the timer
case may have just enabled STI); when it forwards, the pending bit set is
exactly the one corresponding to the cause; and on a machine timer cause the
timer is reset and the supervisor timer interrupt is enabled. -/
theorem C9_mmode_forward_gate (s : MState) :
    ((mmode_forward s).mip ≠ s.mip →
      s.intEnabled = true ∧ (mmode_forward s).sie &&& forwardBit s ≠ 0) ∧
    (s.intEnabled = true → (mmode_forward s).sie &&& forwardBit s ≠ 0 →
      (mmode_forward s).mip = s.mip ||| forwardBit s) ∧
    (s.mcause &&& INT_MASK = IRQ_MAC_TIMER →
      (mmode_forward s).timerReset = true ∧
      Nat.testBit (mmode_forward s).sie 5 = true) := by
  unfold mmode_forward
  by_cases ht : s.mcause &&& INT_MASK = IRQ_MAC_TIMER <;>
    simp only [ht, if_true, if_false, ite_true, ite_false] <;>
    by_cases hi : s.intEnabled <;> simp [hi] <;>
    by_cases hb : (s.sie ||| STI) &&& forwardBit s ≠ 0 <;>
    by_cases hb2 : s.sie &&& forwardBit s ≠ 0 <;>
    simp_all [Nat.testBit_or, STI] <;> exact Or.inr (by decide)

/-- C9 witness: a machine timer trap with interrupts enabled and `sie`
initially empty forwards to the supervisor timer pending bit. -/
theorem C9_mmode_forward_gate_witness :
    (s9.intEnabled = true ∧ (mmode_forward s9).sie &&& forwardBit s9 ≠ 0) ∧
    (mmode_forward s9).mip = s9.mip ||| forwardBit s9 ∧
    ((mmode_forward s9).timerReset = true ∧
      Nat.testBit (mmode_forward s9).sie 5 = true) :=
  ⟨(C9_mmode_forward_gate s9).1 (by decide),
   (C9_mmode_forward_gate s9).2.1 (by decide) (by decide),
   (C9_mmode_forward_gate s9).2.2 (by decide)⟩

/-- C10: `MMU::init` releases exactly three regions to the free pool and
nothing else: the pages from the page-aligned end of system data up to
`SYS_HIGH`, the `STACK_SIZE * CPUS` block of boot stacks ending at
`RAM_TOP + 1`, and the pages from `RAM_BASE` up to `MMODE_F`.  Stated with
plain arithmetic on the claim side; the overflow/ordering hypotheses say the
fixed layout constants are consistent. -/
theorem C10_mmu_init_frees (c : Cfg) (lm : LM)
    (h1 : c.SYS_DATA + lm.sys_data_size + 1 < W64)
    (h2 : align_page (c.SYS_DATA + lm.sys_data_size + 1) ≤ c.SYS_HIGH)
    (h3 : c.SYS_HIGH < W64)
    (h4 : c.MACH_STACK_SZ * c.CPUS ≤ c.RAM_TOP + 1)
    (h5 : c.RAM_TOP + 1 < W64)
    (h6 : c.RAM_BASE ≤ c.MMODE_F)
    (h7 : c.MMODE_F < W64) :
    mmu_init_frees c lm =
      [ (align_page (c.SYS_DATA + lm.sys_data_size + 1),
         pages (c.SYS_HIGH - align_page (c.SYS_DATA + lm.sys_data_size + 1))),
        (c.RAM_TOP + 1 - c.MACH_STACK_SZ * c.CPUS,
         pages (c.MACH_STACK_SZ * c.CPUS)),
        (c.RAM_BASE, pages (c.MMODE_F - c.RAM_BASE)) ] := by
  have e1 : (c.SYS_DATA + lm.sys_data_size + 1) % W64 =
      c.SYS_DATA + lm.sys_data_size + 1 := Nat.mod_eq_of_lt h1
  have e2 : (c.RAM_TOP + 1) % W64 = c.RAM_TOP + 1 := Nat.mod_eq_of_lt h5
  have e3 : (c.MACH_STACK_SZ * c.CPUS) % W64 = c.MACH_STACK_SZ * c.CPUS :=
    Nat.mod_eq_of_lt (lt_of_le_of_lt h4 h5)
  unfold mmu_init_frees
  rw [e1, e2, e3, wsub_sub h2 h3, wsub_sub h4 h5, wsub_sub h6 h7]

/-- C10 witness: the three freed regions at the concrete layout `cfgA` with
load map `lm4`. -/
theorem C10_mmu_init_frees_witness :
    mmu_init_frees cfgA lm4 = [(2101248, 511), (245760, 4), (0, 2)] := by
  have h := C10_mmu_init_frees cfgA lm4 (by decide) (by decide) (by decide)
    (by decide) (by decide) (by decide) (by decide)
  rw [h]; rfl

/-- C8 counterexample: the claim says no operation of this core modifies any
boot-descriptor (`bm`) field.  The `Setup` constructor's clamp (lines 94-95)
does: on a descriptor announcing 5 harts with `Traits<Machine>::CPUS = 4`,
`bm.n_cpus` is overwritten with 4. -/
theorem C8_bm_readonly_cex :
    (clampCpus cfgA si8).bm ≠ si8.bm ∧
    si8.bm.n_cpus = 5 ∧ (clampCpus cfgA si8).bm.n_cpus = 4 := by
  decide

/-- C8 amended: the boot descriptor is read-only across the core except for
the constructor's hart-count clamp: `build_lm` and `build_pmm` leave every
`bm` field unchanged (their writes go to the `lm` and `pmm` parts), and the
clamp rewrites exactly `n_cpus` to `min n_cpus CPUS`, leaving all other
fields intact. -/
theorem C8_bm_frame (c : Cfg) (bi : Blob) (si : SI)
    (hL : (build_lm_si c bi si).toOption.isSome = true)
    (hP : (build_pmm_si si).toOption.isSome = true) :
    (build_lm_si c bi si).toOption.map SI.bm = some si.bm ∧
    (build_pmm_si si).toOption.map SI.bm = some si.bm ∧
    (clampCpus c si).bm = { si.bm with n_cpus := min si.bm.n_cpus c.CPUS } ∧
    (clampCpus c si).lm = si.lm ∧ (clampCpus c si).pmm = si.pmm := by
  refine ⟨?_, ?_, ?_, ?_, ?_⟩
  · unfold build_lm_si at hL ⊢
    cases h : build_lm c si.bm bi si.lm with
    | error e => rw [h] at hL; simp [Except.map, Except.toOption] at hL
    | ok l => rfl
  · unfold build_pmm_si at hP ⊢
    cases h : build_pmm si.bm si.lm with
    | error e => rw [h] at hP; simp [Except.map, Except.toOption] at hP
    | ok p => rfl
  · unfold clampCpus
    split
    · next hgt => rw [Nat.min_def, if_neg (by omega)]
    · next hle => rw [Nat.min_def, if_pos (by omega)]
  · unfold clampCpus; split <;> rfl
  · unfold clampCpus; split <;> rfl

/-- C8 witness: both builders succeed on `si9` and leave its descriptor
untouched; the clamp keeps a hart count already within bounds. -/
theorem C8_bm_frame_witness :
    (build_lm_si cfgA blob0 si9).toOption.map SI.bm = some si9.bm ∧
    (build_pmm_si si9).toOption.map SI.bm = some si9.bm ∧
    (clampCpus cfgA si9).bm =
      { si9.bm with n_cpus := min si9.bm.n_cpus cfgA.CPUS } ∧
    (clampCpus cfgA si9).lm = si9.lm ∧ (clampCpus cfgA si9).pmm = si9.pmm :=
  C8_bm_frame cfgA blob0 si9 (by decide) (by decide)

/-- C5 counterexample: the claim says every computed physical memory map has
`free1_base < free1_top`.  With only a setup payload present (no
application), `build_lm` leaves `app_data = ~0U`, `build_pmm` copies
`app_data + app_data_size = 4294967295` into `free1_base` without panicking,
and `free1_top = 225280`: the free region is inverted, and `free1_base` is
not even page-aligned. -/
theorem C5_free_region_cex :
    ((build_lm cfgA bm5 blob5 LM.zero).bind (build_pmm bm5)).toOption.map
        (fun p => (p.free1_base, p.free1_top)) = some (4294967295, 225280) ∧
    ¬(4294967295 < 225280) ∧ (4294967295 : Nat) % PAGE_SIZE ≠ 0 :=
  ⟨by rfl, by decide, by decide⟩

/-- C5 amended: for every physical memory map the planner computes without
panicking, every base address the planner itself computes (`sys_info`,
`sys_pt`, `sys_pd`, `sys_code`, `sys_data`, `sys_stack`, `phy_mem_pts`,
`io_pts`, `usr_mem_top`) is page-aligned, `free1_top` equals `usr_mem_top`,
and `usr_mem_top` strictly exceeds the setup payload's footprint
`stp_code + stp_code_size + stp_data_size`.  (`free1_base` is copied from
the load map and is neither aligned nor below `free1_top` in general.) -/
theorem C5_pmm_invariants (bm : BM) (lm : LM) (p : PMM)
    (hok : build_pmm bm lm = .ok p) :
    (PAGE_SIZE ∣ p.sys_info ∧ PAGE_SIZE ∣ p.sys_pt ∧ PAGE_SIZE ∣ p.sys_pd ∧
     PAGE_SIZE ∣ p.sys_code ∧ PAGE_SIZE ∣ p.sys_data ∧
     PAGE_SIZE ∣ p.sys_stack ∧ PAGE_SIZE ∣ p.phy_mem_pts ∧
     PAGE_SIZE ∣ p.io_pts ∧ PAGE_SIZE ∣ p.usr_mem_top) ∧
    p.free1_top = p.usr_mem_top ∧
    (lm.stp_code + lm.stp_code_size + lm.stp_data_size) % W64 <
      p.usr_mem_top := by
  unfold build_pmm at hok
  by_cases hx : lm.has_ext = true <;>
    simp only [hx, if_true, if_false, ite_true, ite_false,
      Bool.false_eq_true] at hok <;>
    split at hok
  · exact Except.noConfusion hok
  · next hgt =>
    injection hok with hp
    subst hp
    exact ⟨⟨page_dvd_mod _, page_dvd_mod _, page_dvd_mod _, page_dvd_mod _,
            page_dvd_mod _, page_dvd_mod _, page_dvd_mod _, page_dvd_mod _,
            page_dvd_mod _⟩, rfl, Nat.lt_of_not_le hgt⟩
  · exact Except.noConfusion hok
  · next hgt =>
    injection hok with hp
    subst hp
    exact ⟨⟨page_dvd_mod _, page_dvd_mod _, page_dvd_mod _, page_dvd_mod _,
            page_dvd_mod _, page_dvd_mod _, page_dvd_mod _, page_dvd_mod _,
            page_dvd_mod _⟩, rfl, Nat.lt_of_not_le hgt⟩

/-- C5 witness: the amended invariants at the concrete map `pmm4` computed
from `bm4`/`lm4`. -/
theorem C5_pmm_invariants_witness :
    (PAGE_SIZE ∣ pmm4.sys_info ∧ PAGE_SIZE ∣ pmm4.sys_pt ∧
     PAGE_SIZE ∣ pmm4.sys_pd ∧ PAGE_SIZE ∣ pmm4.sys_code ∧
     PAGE_SIZE ∣ pmm4.sys_data ∧ PAGE_SIZE ∣ pmm4.sys_stack ∧
     PAGE_SIZE ∣ pmm4.phy_mem_pts ∧ PAGE_SIZE ∣ pmm4.io_pts ∧
     PAGE_SIZE ∣ pmm4.usr_mem_top) ∧
    pmm4.free1_top = pmm4.usr_mem_top ∧
    (lm4.stp_code + lm4.stp_code_size + lm4.stp_data_size) % W64 <
      pmm4.usr_mem_top :=
  C5_pmm_invariants bm4 lm4 pmm4 (by rfl)

/-- The downward walk of `build_pmm`, rewritten from wrapping to plain
subtraction under a no-underflow bound. -/
theorem pmm_walk_core (T pc pd ps n1 n2 ni : Nat)
    (hT : T * PAGE_SIZE < W64)
    (hsum : 5 + pc + pd + ps + n1 + n2 + ni ≤ T) :
    (wsub (wsub T 1) 1 * PAGE_SIZE) % W64 = (T - 2) * PAGE_SIZE ∧
    (wsub (wsub (wsub T 1) 1) 1 * PAGE_SIZE) % W64 = (T - 3) * PAGE_SIZE ∧
    (wsub (wsub (wsub (wsub T 1) 1) 1) 2 * PAGE_SIZE) % W64 =
      (T - 5) * PAGE_SIZE ∧
    (wsub (wsub (wsub (wsub (wsub T 1) 1) 1) 2) pc * PAGE_SIZE) % W64 =
      (T - 5 - pc) * PAGE_SIZE ∧
    (wsub (wsub (wsub (wsub (wsub (wsub T 1) 1) 1) 2) pc) pd * PAGE_SIZE) %
        W64 = (T - 5 - pc - pd) * PAGE_SIZE ∧
    (wsub (wsub (wsub (wsub (wsub (wsub (wsub T 1) 1) 1) 2) pc) pd) ps *
        PAGE_SIZE) % W64 = (T - 5 - pc - pd - ps) * PAGE_SIZE ∧
    (wsub (wsub (wsub (wsub (wsub (wsub (wsub (wsub (wsub T 1) 1) 1) 2) pc)
        pd) ps) n1) n2 * PAGE_SIZE) % W64 =
      (T - 5 - pc - pd - ps - n1 - n2) * PAGE_SIZE ∧
    (wsub (wsub (wsub (wsub (wsub (wsub (wsub (wsub (wsub (wsub T 1) 1) 1) 2)
        pc) pd) ps) n1) n2) ni * PAGE_SIZE) % W64 =
      (T - 5 - pc - pd - ps - n1 - n2 - ni) * PAGE_SIZE := by
  have hTW : T < W64 :=
    lt_of_le_of_lt (Nat.le_mul_of_pos_right T (by decide)) hT
  have h1 : wsub T 1 = T - 1 := wsub_sub (by omega) hTW
  have h2 : wsub (T - 1) 1 = T - 2 := wsub_sub (by omega) (by omega)
  have h3 : wsub (T - 2) 1 = T - 3 := wsub_sub (by omega) (by omega)
  have h4 : wsub (T - 3) 2 = T - 5 := wsub_sub (by omega) (by omega)
  have h5 : wsub (T - 5) pc = T - 5 - pc := wsub_sub (by omega) (by omega)
  have h6 : wsub (T - 5 - pc) pd = T - 5 - pc - pd :=
    wsub_sub (by omega) (by omega)
  have h7 : wsub (T - 5 - pc - pd) ps = T - 5 - pc - pd - ps :=
    wsub_sub (by omega) (by omega)
  have h8 : wsub (T - 5 - pc - pd - ps) n1 = T - 5 - pc - pd - ps - n1 :=
    wsub_sub (by omega) (by omega)
  have h9 : wsub (T - 5 - pc - pd - ps - n1) n2 =
      T - 5 - pc - pd - ps - n1 - n2 := wsub_sub (by omega) (by omega)
  have h10 : wsub (T - 5 - pc - pd - ps - n1 - n2) ni =
      T - 5 - pc - pd - ps - n1 - n2 - ni := wsub_sub (by omega) (by omega)
  have hm : ∀ x : Nat, x ≤ T → (x * PAGE_SIZE) % W64 = x * PAGE_SIZE :=
    fun x hx =>
      Nat.mod_eq_of_lt (lt_of_le_of_lt (mul_le_mul_right' hx PAGE_SIZE) hT)
  rw [h1, h2, h3, h4, h5, h6, h7, h8, h9, h10]
  exact ⟨hm _ (by omega), hm _ (by omega), hm _ (by omega), hm _ (by omega),
         hm _ (by omega), hm _ (by omega), hm _ (by omega), hm _ (by omega)⟩

/-- C4 counterexample: the claim's walk subtracts exactly the
physical-memory-window page-table count (here `n_pds = 1`, no split needed)
between the stack base and `phy_mem_pts`, i.e. one page; the code subtracts
`n_pd1 + n_pd2 = 2` pages (`n_pd2 = 1` even when no second level is
needed), leaving a 2-page gap. -/
theorem C4_pmm_walk_cex :
    (build_pmm bm4 lm4).toOption.map
        (fun p => (p.sys_stack - p.phy_mem_pts, pmm_n_pds bm4 * PAGE_SIZE)) =
      some (8192, 4096) ∧ (8192 : Nat) ≠ 4096 :=
  ⟨by rfl, by decide⟩

/-- C4 amended: the planner walks `top_page` down from
`pages(mem_top - mem_base)` (the size of usable RAM in pages; recorded bases
are page-index times page-size), subtracting in order: 1 page (machine-mode
stub, unrecorded), 1 (info), 1 (system page table), 2 (system page
directory), `pages(sys_code_size)`, `pages(sys_data_size)`,
`pages(sys_stack_size)`, then `n_pd1 + n_pd2` pages for the
physical-memory-window page tables - where `n_pd1 = n_pds` and `n_pd2 = 1`
when `n_pds` does not exceed one directory's capacity (one page more than
the `n_pds` tables needed), else `n_pd2 = n_pds / PD_ENTRIES` and
`n_pd1 = n_pds / n_pd2` - and finally the I/O-window page tables, recording
each base; `usr_mem_top` and `free1_top` equal the final base. -/
theorem C4_pmm_walk (bm : BM) (lm : LM) (p : PMM)
    (hT : pages (wsub bm.mem_top bm.mem_base) * PAGE_SIZE < W64)
    (hsum : 5 + pages lm.sys_code_size + pages lm.sys_data_size +
        pages lm.sys_stack_size + pmm_n_pd1 bm + pmm_n_pd2 bm +
        page_tables (pages (wsub bm.mio_top bm.mio_base)) ≤
        pages (wsub bm.mem_top bm.mem_base))
    (hok : build_pmm bm lm = .ok p) :
    p.sys_info =
      (pages (wsub bm.mem_top bm.mem_base) - 2) * PAGE_SIZE ∧
    p.sys_pt = (pages (wsub bm.mem_top bm.mem_base) - 3) * PAGE_SIZE ∧
    p.sys_pd = (pages (wsub bm.mem_top bm.mem_base) - 5) * PAGE_SIZE ∧
    p.sys_code = (pages (wsub bm.mem_top bm.mem_base) - 5 -
        pages lm.sys_code_size) * PAGE_SIZE ∧
    p.sys_data = (pages (wsub bm.mem_top bm.mem_base) - 5 -
        pages lm.sys_code_size - pages lm.sys_data_size) * PAGE_SIZE ∧
    p.sys_stack = (pages (wsub bm.mem_top bm.mem_base) - 5 -
        pages lm.sys_code_size - pages lm.sys_data_size -
        pages lm.sys_stack_size) * PAGE_SIZE ∧
    p.phy_mem_pts = (pages (wsub bm.mem_top bm.mem_base) - 5 -
        pages lm.sys_code_size - pages lm.sys_data_size -
        pages lm.sys_stack_size - pmm_n_pd1 bm - pmm_n_pd2 bm) * PAGE_SIZE ∧
    p.io_pts = (pages (wsub bm.mem_top bm.mem_base) - 5 -
        pages lm.sys_code_size - pages lm.sys_data_size -
        pages lm.sys_stack_size - pmm_n_pd1 bm - pmm_n_pd2 bm -
        page_tables (pages (wsub bm.mio_top bm.mio_base))) * PAGE_SIZE ∧
    p.usr_mem_top = p.io_pts ∧ p.free1_top = p.io_pts := by
  obtain ⟨e2, e3, e4, e5, e6, e7, e8, e9⟩ :=
    pmm_walk_core (pages (wsub bm.mem_top bm.mem_base))
      (pages lm.sys_code_size) (pages lm.sys_data_size)
      (pages lm.sys_stack_size) (pmm_n_pd1 bm) (pmm_n_pd2 bm)
      (page_tables (pages (wsub bm.mio_top bm.mio_base))) hT hsum
  unfold build_pmm at hok
  by_cases hx : lm.has_ext = true <;>
    simp only [hx, if_true, if_false, ite_true, ite_false,
      Bool.false_eq_true] at hok <;>
    split at hok
  · exact Except.noConfusion hok
  · injection hok with hp
    subst hp
    exact ⟨e2, e3, e4, e5, e6, e7, e8, e9, rfl, rfl⟩
  · exact Except.noConfusion hok
  · injection hok with hp
    subst hp
    exact ⟨e2, e3, e4, e5, e6, e7, e8, e9, rfl, rfl⟩

/-- C4 witness: the amended walk at the concrete inputs `bm4`/`lm4` with
output `pmm4`. -/
theorem C4_pmm_walk_witness :
    pmm4.sys_info = 62 * PAGE_SIZE ∧ pmm4.sys_pt = 61 * PAGE_SIZE ∧
    pmm4.sys_pd = 59 * PAGE_SIZE ∧ pmm4.sys_code = 59 * PAGE_SIZE ∧
    pmm4.sys_data = 59 * PAGE_SIZE ∧ pmm4.sys_stack = 58 * PAGE_SIZE ∧
    pmm4.phy_mem_pts = 56 * PAGE_SIZE ∧ pmm4.io_pts = 55 * PAGE_SIZE ∧
    pmm4.usr_mem_top = pmm4.io_pts ∧ pmm4.free1_top = pmm4.io_pts :=
  C4_pmm_walk bm4 lm4 pmm4 (by decide) (by decide) (by rfl)

/-- C6 counterexample: the claim says an all-absent descriptor yields an
all-zero load map.  The builder does complete without panicking, but it
writes the `~0U` sentinel (4294967295) into every code/data base field and
`SYS_STACK` / `STACK_SIZE * n_cpus` into the system stack fields - not
zeros. -/
theorem C6_all_zero_cex :
    (build_lm cfgA bm6 blob0 LM.zero).toOption.map
        (fun l => (l.stp_code, l.sys_stack, l.sys_stack_size)) =
      some (4294967295, 3145728, 12288) ∧
    (4294967295 : Nat) ≠ 0 ∧ (3145728 : Nat) ≠ 0 :=
  ⟨by rfl, by decide, by decide⟩

/-- C6 amended: on a descriptor whose five payload offsets all equal the
absent sentinel, `build_lm` completes without panicking; all presence flags
become false, all entry points, segment counts and sizes become zero, every
code/data base becomes the `~0U` sentinel, `sys_stack` becomes the
`SYS_STACK` constant and `sys_stack_size` becomes `STACK_SIZE * n_cpus`;
the fields it does not write (`app_stack`, `app_heap`, `app_extra`,
`app_extra_size`) keep their prior values. -/
theorem C6_all_absent_lm (c : Cfg) (bm : BM) (bi : Blob) (lm0 : LM)
    (h1 : bm.setup_offset = ABSENT) (h2 : bm.init_offset = ABSENT)
    (h3 : bm.system_offset = ABSENT) (h4 : bm.application_offset = ABSENT)
    (h5 : bm.extras_offset = ABSENT) :
    build_lm c bm bi lm0 = .ok
      { lm0 with
        has_stp := false, has_ini := false, has_sys := false,
        has_app := false, has_ext := false,
        stp_entry := 0, stp_segments := 0, stp_code := UNDEF,
        stp_code_size := 0, stp_data := UNDEF, stp_data_size := 0,
        ini_entry := 0, ini_segments := 0, ini_code := UNDEF,
        ini_code_size := 0, ini_data := UNDEF, ini_data_size := 0,
        sys_entry := 0, sys_segments := 0, sys_code := UNDEF,
        sys_code_size := 0, sys_data := UNDEF, sys_data_size := 0,
        sys_stack := c.SYS_STACK,
        sys_stack_size := (c.SYS_STACK_SZ * bm.n_cpus) % W64,
        app_entry := 0, app_segments := 0, app_code := UNDEF,
        app_code_size := 0, app_data := UNDEF, app_data_size := 0 } := by
  unfold build_lm build_lm_vals
  simp [h1, h2, h3, h4, h5, payloadScan, appPost, applyLMVals,
    Bind.bind, Except.bind, Pure.pure, Except.pure, Except.map]

/-- C6 witness: the amended result at the concrete all-absent descriptor
`bm6` over the zero prior map. -/
theorem C6_all_absent_lm_witness :
    build_lm cfgA bm6 blob0 LM.zero = .ok
      { LM.zero with
        stp_code := UNDEF, stp_data := UNDEF,
        ini_code := UNDEF, ini_data := UNDEF,
        sys_code := UNDEF, sys_data := UNDEF,
        sys_stack := cfgA.SYS_STACK,
        sys_stack_size := (cfgA.SYS_STACK_SZ * bm6.n_cpus) % W64,
        app_code := UNDEF, app_data := UNDEF } :=
  C6_all_absent_lm cfgA bm6 blob0 LM.zero rfl rfl rfl rfl rfl

/-- C7 counterexample: the claim says the load-map output is a pure function
of the blob and descriptor, unaffected by the load map's prior contents.
With multiheap off and an application present, `app_stack` is never written,
so two different prior maps yield two different outputs. -/
theorem C7_purity_cex :
    (build_lm cfgA bm7 blob7 LM.zero).toOption.map (fun l => l.app_stack) =
      some 0 ∧
    (build_lm cfgA bm7 blob7 lmB).toOption.map (fun l => l.app_stack) =
      some 7 ∧
    (0 : Nat) ≠ 7 :=
  ⟨by rfl, by rfl, by decide⟩

/-- C7 amended: re-running the Load-Map Builder on the same blob and
descriptor is idempotent - the second run reproduces the first run's load
map byte for byte, because every field the builder writes is a function of
the configuration, blob and descriptor only, and the fields it does not
write (`app_stack`/`app_heap` without multiheap, `app_extra`/
`app_extra_size` without extras) carry over unchanged from the first run.
Purity over the prior map contents, however, fails for those unwritten
fields (see the counterexample). -/
theorem C7_build_lm_idem (c : Cfg) (bm : BM) (bi : Blob) (lm0 lm1 : LM)
    (h : build_lm c bm bi lm0 = .ok lm1) :
    build_lm c bm bi lm1 = .ok lm1 := by
  unfold build_lm at h ⊢
  cases hv : build_lm_vals c bm bi with
  | error e => rw [hv] at h; simp [Except.map] at h
  | ok v =>
    rw [hv] at h
    simp only [Except.map, Except.ok.injEq] at h
    simp only [Except.map, Except.ok.injEq]
    rw [← h]
    exact applyLMVals_idem lm0 v

/-- C7 witness: a second run on the concrete first-run output `lm1B`
reproduces it. -/
theorem C7_build_lm_idem_witness :
    build_lm cfgA bm7 blob7 lm1B = .ok lm1B :=
  C7_build_lm_idem cfgA bm7 blob7 lmB lm1B (by rfl)

/-- The system-payload check block panics (returns `none` through
`toOption`) exactly when one of its five conditions holds. -/
theorem sysChecks_toOption_none_iff (c : Cfg) (a b d e f : Nat) :
    (sysChecks c a b d e f).toOption = none ↔
      (a ≠ c.SYS_CODE ∨ (a + b) % W64 > d ∨ d ≠ c.SYS_DATA ∨
       (d + e) % W64 > c.SYS_STACK ∨
       page_tables (pages ((wsub c.SYS_STACK c.SYS + f) % W64)) > 1) := by
  unfold sysChecks
  split_ifs <;> simp_all [Except.toOption]

/-- With all present payloads structurally valid, `build_lm_vals` panics
exactly when the system check block does. -/
theorem build_lm_vals_err_iff (c : Cfg) (bm : BM) (bi : Blob)
    (hsys : bm.system_offset ≠ ABSENT)
    (hsv : (bi bm.system_offset).valid = true)
    (hstp : bm.setup_offset ≠ ABSENT → (bi bm.setup_offset).valid = true)
    (hini : bm.init_offset ≠ ABSENT → (bi bm.init_offset).valid = true)
    (happ : bm.application_offset ≠ ABSENT →
      (bi bm.application_offset).valid = true) :
    (build_lm_vals c bm bi).toOption = none ↔
      (sysChecks c (segAddr (bi bm.system_offset) 0)
        (segSize (bi bm.system_offset) 0)
        (elfData (bi bm.system_offset)).1
        (elfData (bi bm.system_offset)).2
        ((c.SYS_STACK_SZ * bm.n_cpus) % W64)).toOption = none := by
  unfold build_lm_vals
  rcases hc : sysChecks c (segAddr (bi bm.system_offset) 0)
      (segSize (bi bm.system_offset) 0)
      (elfData (bi bm.system_offset)).1
      (elfData (bi bm.system_offset)).2
      ((c.SYS_STACK_SZ * bm.n_cpus) % W64) with m | u <;>
    by_cases h1 : bm.setup_offset = ABSENT <;>
    by_cases h2 : bm.init_offset = ABSENT <;>
    by_cases h4 : bm.application_offset = ABSENT <;>
    simp [h1, h2, h4, hc, hsys, hsv, hstp, hini, happ, payloadScan,
      Bind.bind, Except.bind, Pure.pure, Except.pure, Except.toOption]

/-- A failing system check propagates its diagnostic out of
`build_lm_vals` unchanged. -/
theorem build_lm_vals_err_eq (c : Cfg) (bm : BM) (bi : Blob) (m : String)
    (hsys : bm.system_offset ≠ ABSENT)
    (hsv : (bi bm.system_offset).valid = true)
    (hstp : bm.setup_offset ≠ ABSENT → (bi bm.setup_offset).valid = true)
    (hini : bm.init_offset ≠ ABSENT → (bi bm.init_offset).valid = true)
    (hm : sysChecks c (segAddr (bi bm.system_offset) 0)
        (segSize (bi bm.system_offset) 0)
        (elfData (bi bm.system_offset)).1
        (elfData (bi bm.system_offset)).2
        ((c.SYS_STACK_SZ * bm.n_cpus) % W64) = .error m) :
    build_lm_vals c bm bi = .error m := by
  unfold build_lm_vals
  by_cases h1 : bm.setup_offset = ABSENT <;>
    by_cases h2 : bm.init_offset = ABSENT <;>
    simp [h1, h2, hm, hsys, hsv, hstp, hini, payloadScan,
      Bind.bind, Except.bind, Pure.pure, Except.pure]

/-- `Except.map` preserves panicking. -/
theorem except_map_toOption_none {A B : Type} (g : A → B)
    (x : Except String A) :
    (Except.map g x).toOption = none ↔ x.toOption = none := by
  cases x <;> simp [Except.map, Except.toOption]

/-- C3 counterexample: the claim says the builder panics (with a layout
diagnostic) if and only if one of four conditions holds.  At `bm3`/`blob3`
the system payload matches `SYS_CODE`/`SYS_DATA` and spills nowhere - all
four claimed conditions are false - yet `build_lm` panics, through its fifth
check: `page_tables(pages(sys_stack - SYS + sys_stack_size)) > 1` (the
"OS stack segment is too large!" diagnostic), so no further boot step would
execute. -/
theorem C3_sys_layout_checks_cex :
    build_lm cfgA bm3 blob3 LM.zero =
      .error "OS stack segment is too large!" ∧
    ¬(segAddr (blob3 bm3.system_offset) 0 ≠ cfgA.SYS_CODE ∨
      (segAddr (blob3 bm3.system_offset) 0 +
        segSize (blob3 bm3.system_offset) 0) % W64 >
        (elfData (blob3 bm3.system_offset)).1 ∨
      (elfData (blob3 bm3.system_offset)).1 ≠ cfgA.SYS_DATA ∨
      ((elfData (blob3 bm3.system_offset)).1 +
        (elfData (blob3 bm3.system_offset)).2) % W64 > cfgA.SYS_STACK) :=
  ⟨by rfl, by decide⟩

/-- C3 amended: for a boot image with a present, structurally valid system
payload (and all other present payloads valid), the Load-Map Builder panics
if and only if one of FIVE conditions holds: the four of the claim - system
code address differing from SYS_CODE, code end exceeding the data base, data
address differing from SYS_DATA, data end exceeding the stack base - or the
fifth check of the source: the system stack region
(`sys_stack - SYS + sys_stack_size`) needing more than one page table.  In
particular a system code address of `SYS_CODE` plus one page panics with the
"does not match the machine memory map" diagnostic. -/
theorem C3_sys_layout_checks (c : Cfg) (bm : BM) (bi : Blob) (lm0 : LM)
    (hsys : bm.system_offset ≠ ABSENT)
    (hsv : (bi bm.system_offset).valid = true)
    (hstp : bm.setup_offset ≠ ABSENT → (bi bm.setup_offset).valid = true)
    (hini : bm.init_offset ≠ ABSENT → (bi bm.init_offset).valid = true)
    (happ : bm.application_offset ≠ ABSENT →
      (bi bm.application_offset).valid = true) :
    ((build_lm c bm bi lm0).toOption = none ↔
      (segAddr (bi bm.system_offset) 0 ≠ c.SYS_CODE ∨
       (segAddr (bi bm.system_offset) 0 + segSize (bi bm.system_offset) 0) %
           W64 > (elfData (bi bm.system_offset)).1 ∨
       (elfData (bi bm.system_offset)).1 ≠ c.SYS_DATA ∨
       ((elfData (bi bm.system_offset)).1 + (elfData (bi bm.system_offset)).2)
           % W64 > c.SYS_STACK ∨
       page_tables (pages ((wsub c.SYS_STACK c.SYS +
         (c.SYS_STACK_SZ * bm.n_cpus) % W64) % W64)) > 1)) ∧
    (segAddr (bi bm.system_offset) 0 = c.SYS_CODE + PAGE_SIZE →
      build_lm c bm bi lm0 =
        .error "OS code segment address does not match the machine memory map!") := by
  constructor
  · rw [show build_lm c bm bi lm0 =
        Except.map (applyLMVals lm0) (build_lm_vals c bm bi) from rfl,
      except_map_toOption_none,
      build_lm_vals_err_iff c bm bi hsys hsv hstp hini happ,
      sysChecks_toOption_none_iff]
  · intro hB
    have hne : segAddr (bi bm.system_offset) 0 ≠ c.SYS_CODE := by
      rw [hB]; unfold PAGE_SIZE; omega
    have hm : sysChecks c (segAddr (bi bm.system_offset) 0)
        (segSize (bi bm.system_offset) 0)
        (elfData (bi bm.system_offset)).1
        (elfData (bi bm.system_offset)).2
        ((c.SYS_STACK_SZ * bm.n_cpus) % W64) =
        .error "OS code segment address does not match the machine memory map!" := by
      unfold sysChecks
      rw [if_pos hne]
    rw [show build_lm c bm bi lm0 =
        Except.map (applyLMVals lm0) (build_lm_vals c bm bi) from rfl,
      build_lm_vals_err_eq c bm bi _ hsys hsv hstp hini hm]
    rfl

/-- C3 witness: the amended equivalence applied at the concrete image
`bm3`/`blob3`, where the fifth condition holds and `build_lm` panics. -/
theorem C3_sys_layout_checks_witness :
    (build_lm cfgA bm3 blob3 LM.zero).toOption = none :=
  (C3_sys_layout_checks cfgA bm3 blob3 LM.zero (by decide) (by decide)
      (fun h => absurd rfl h) (fun h => absurd rfl h)
      (fun h => absurd rfl h)).1.mpr
    (Or.inr (Or.inr (Or.inr (Or.inr (by decide)))))
